import Mathlib

/-!
Verification development for the `r.learn.parallel.predict` /
`r.learn.predict.worker` pair of GRASS GIS python modules.

The two scripts are orchestration code: they read options and flags, build a
vector grid, dispatch one worker job per grid cell into an isolated mapset,
check that the parent mapset did not change, copy the per-cell result rasters
back, and merge them with `r.patch` (or `r.buildvrt` with the `-v` flag), or
run `r.learn.predict` directly when the computed parallelism is at most 1.

We embed both `main` functions shallowly: every external GRASS command the
scripts would run is recorded as a constructor of a command trace, fatal
errors (`grass.fatal`, uncaught python exceptions) become `Except.error`
carrying the trace accumulated so far, and the process-wide cleanup
registries (`rm_rasters`, `rm_vectors`) are threaded explicitly.
-/

namespace RLearnParallel

/-- Flags of `r.learn.parallel.predict` in the declaration order of the
python parser block: `p` (class membership probabilities), `z` (only
probabilities), `v` (build a VRT instead of patching). -/
structure Flags where
  p : Bool
  z : Bool
  v : Bool
deriving DecidableEq, Repr

/-- Options of `r.learn.parallel.predict` as read in `main`
(lines 147-162).  `grid` is the optional explicit "rows,columns" pair;
`n_jobs` is the raw `nprocs` option value before `set_test_nprocs`. -/
structure Options where
  group : String
  output : String
  load_model : String
  chunksize : String
  grid : Option (Int × Int)
  n_jobs : Int
deriving DecidableEq, Repr

/-- Ambient state `main` observes from GRASS: the CPU count seen by
`multiprocessing.cpu_count()`, whether `grass.find_program` finds
`r.learn.predict`, the mapset reported by `grass.gisenv()` before dispatch
and after `queue.wait()`, the process id used in temporary names, and the
order in which the queued worker modules happen to finish. -/
structure Env where
  cpu : Int
  predictInstalled : Bool
  mapsetStart : String
  mapsetAfterWait : String
  pid : Nat
  completion : List Nat
deriving DecidableEq, Repr

/-- Fatal outcomes of a run: `grass.fatal` on a missing `r.learn.predict`
(lines 174-181), the external `v.mkgrid` rejecting a non-positive grid
dimension, `grass.fatal` on a changed parent mapset (lines 229-232), and
the uncaught `IndexError` raised by `[x ... ][0]` on an empty
`classifications` list (line 254). -/
inductive Fatal where
  | missingPredict
  | invalidGrid
  | contextLeak
  | mergeEmpty
deriving DecidableEq, Repr

/-- External commands `r.learn.parallel.predict` runs, in trace order.
`dispatchWorker` records the `Module("r.learn.predict.worker", ...)` call of
lines 207-219 with exactly the arguments that call passes: area, where
(both determined by `cat`), mapset, resolutions, group, output, model,
chunksize — and no flag argument.  `runWorker` marks the completion of a
queued job.  `predictDirect` is the non-parallel `r.learn.predict` call of
lines 259-266. -/
inductive Cmd where
  | vmkgrid (map : String) (rows cols : Int)
  | dispatchWorker (cat : Nat) (mapset : String) (output : String)
      (group : String) (load_model : String) (chunksize : String)
  | runWorker (cat : Nat)
  | copyRaster (src dst : String)
  | rmMapsetDir (mapset : String)
  | patch (inputs : List String) (output : String)
  | buildvrt (inputs : List String) (output : String)
  | predictDirect (group output load_model chunksize flagsStr : String)
deriving DecidableEq, Repr

/-- `set_test_nprocs` (lines 126-139).  The second component records whether
the non-fatal `grass.warning` about exceeding the CPU count is emitted; the
function never fails. -/
def set_test_nprocs (nprocs_real : Int) (nprocs : Int) : Int × Bool :=
  if nprocs = -2 then (nprocs_real - 1, false)
  else (nprocs, decide (nprocs > nprocs_real))

/-- Flag string built in `main` (lines 154-157): concatenation of the set
flags in parser declaration order (p, z, v), skipping `v`. -/
def flags_str (f : Flags) : String :=
  (if f.p then "p" else "") ++ (if f.z then "z" else "")

/-- Grid dimensions (lines 159-162): the explicit `grid` option verbatim if
given, otherwise `n_jobs, n_jobs`. -/
def gridDims (opts : Options) (n_jobs : Int) : Int × Int :=
  match opts.grid with
  | some rc => rc
  | none => (n_jobs, n_jobs)

/-- Cell identifiers of a `rows × cols` grid: `1, 2, ..., rows * cols`. -/
def gridCatList (rows cols : Int) : List Nat :=
  (List.range (rows.toNat * cols.toNat)).map (· + 1)

/-- Modelled from the spec: the external grid collaborator (the
`v.mkgrid` call of line 186 followed by `v.category ... option=print` of
lines 190-192), which is a GRASS module outside this repository.  Per the
spec it "fails with InvalidGridError if rows or cols ≤ 0", and otherwise
creates `rows * cols` cells whose stable integer identifiers (`cat`) are
assigned at creation, printed by `v.category` in ascending order starting
at 1. -/
def mkgridCats (rows cols : Int) : Except Fatal (List Nat) :=
  if rows ≤ 0 ∨ cols ≤ 0 then .error .invalidGrid
  else .ok (gridCatList rows cols)

/-- Temporary mapset name for one cell (line 204). -/
def tmpMapset (cat : Nat) : String := "tmp_mapset_rlearnpredict_" ++ toString cat

/-- Temporary per-cell output name (line 205). -/
def tmpOutput (output : String) (cat : Nat) : String := output ++ "_" ++ toString cat

/-- Outcome of one run: the trace of external commands together with the
final contents of the `rm_rasters` and `rm_vectors` cleanup registries. -/
structure RunResult where
  trace : List Cmd
  rm_rasters : List String
  rm_vectors : List String
deriving DecidableEq, Repr

/-- Merge step of `main` (lines 245-255) on the `classifications` list,
each entry a (tmp_output, mapset) pair as assembled on line 220.  With more
than one tile the tiles are combined by `r.patch`, or by `r.buildvrt` when
the `v` flag is set in which case they are kept out of `rm_rasters`
(lines 246-252); otherwise the single tile is copied to the output by
`g.copy` — and on an empty list the indexing `[x ... ][0]` of line 254
raises an uncaught `IndexError`, a fatal non-zero exit.  Returns the merge
commands and the rasters added to `rm_rasters`. -/
def mergeStep (classifications : List (String × String)) (output : String)
    (vflag : Bool) : Except Fatal (List Cmd × List String) :=
  if classifications.length > 1 then
    let all_classified := classifications.map Prod.fst
    let cmd := if vflag then Cmd.buildvrt all_classified output
               else Cmd.patch all_classified output
    .ok ([cmd], if vflag then [] else all_classified)
  else
    match classifications.map Prod.fst with
    | [] => .error .mergeEmpty
    | x :: _ => .ok ([Cmd.copyRaster x output], [])

/-- Temporary grid vector name (line 185). -/
def gridNameOf (env : Env) : String := "tmp_grid_" ++ toString env.pid

/-- The worker dispatches queued in the loop of lines 203-221, one per
cell, in cell identifier order.  The `Module` call records exactly the
arguments the source passes; it passes no flag argument. -/
def dispatchList (opts : Options) (cs : List Nat) : List Cmd :=
  cs.map fun cat =>
    Cmd.dispatchWorker cat (tmpMapset cat) (tmpOutput opts.output cat)
      opts.group opts.load_model opts.chunksize

/-- The `classifications` list assembled on line 220 during dispatch: one
(tmp_output, mapset) pair per cell, in cell identifier order; note it is
built when a job is queued, not when it completes, so job completion
order cannot affect it. -/
def classList (opts : Options) (cs : List Nat) : List (String × String) :=
  cs.map fun cat => (tmpOutput opts.output cat, tmpMapset cat)

/-- Grid dimensions a run uses, after `set_test_nprocs` (lines 147 and
159-162). -/
def gridRC (env : Env) (opts : Options) : Int × Int :=
  gridDims opts (set_test_nprocs env.cpu opts.n_jobs).1

/-- Cell identifiers a run's grid produces. -/
def gridCats (env : Env) (opts : Options) : List Nat :=
  gridCatList (gridRC env opts).1 (gridRC env opts).2

/-- Trace from grid creation to the end of `queue.wait()`: the `v.mkgrid`
call, the dispatches in cell order, then the job completions in whatever
order the queue finishes them. -/
def preTrace (env : Env) (opts : Options) (cs : List Nat) : List Cmd :=
  Cmd.vmkgrid (gridNameOf env) (gridRC env opts).1 (gridRC env opts).2 ::
    (dispatchList opts cs ++ env.completion.map Cmd.runWorker)

/-- Trace of the copy-back loop (lines 234-239): per classification a
`g.copy` from the job mapset followed by removal of that mapset
directory. -/
def copyBackTrace (opts : Options) (cs : List Nat) : List Cmd :=
  (classList opts cs).flatMap fun c =>
    [Cmd.copyRaster (c.1 ++ "@" ++ c.2) c.1, Cmd.rmMapsetDir c.2]

/-- `main` of `r.learn.parallel.predict` (lines 142-267).  A fatal error
carries the command trace accumulated before the abort. -/
def main (env : Env) (opts : Options) (f : Flags) :
    Except (Fatal × List Cmd) RunResult :=
  let n_jobs := (set_test_nprocs env.cpu opts.n_jobs).1
  let fstr := flags_str f
  let rc := gridDims opts n_jobs
  if env.predictInstalled = false then .error (.missingPredict, [])
  else if n_jobs > 1 then
    match mkgridCats rc.1 rc.2 with
    | .error e => .error (e, [Cmd.vmkgrid (gridNameOf env) rc.1 rc.2])
    | .ok cats =>
      let pre := preTrace env opts cats
      if env.mapsetAfterWait ≠ env.mapsetStart then
        .error (.contextLeak, pre)
      else
        match mergeStep (classList opts cats) opts.output f.v with
        | .error e => .error (e, pre ++ copyBackTrace opts cats)
        | .ok (mcmds, rmr) =>
          .ok ⟨pre ++ copyBackTrace opts cats ++ mcmds, rmr, [gridNameOf env]⟩
  else
    .ok ⟨[Cmd.predictDirect opts.group opts.output opts.load_model
            opts.chunksize fstr], [], []⟩

/-- Number of worker dispatches (queued jobs) in a trace. -/
def countDispatch (l : List Cmd) : Nat :=
  l.countP fun c => match c with
    | .dispatchWorker _ _ _ _ _ _ => true
    | _ => false

/-- Input lists of the tile-combining commands (`r.patch` / `r.buildvrt`)
in a trace. -/
def mergeInputs (l : List Cmd) : List (List String) :=
  l.filterMap fun c => match c with
    | .patch inputs _ => some inputs
    | .buildvrt inputs _ => some inputs
    | _ => none

/-- The `cleanup` handler (lines 112-123) restricted to rasters: every
registered raster that still exists is removed by `g.remove`; the value is
the set of rasters still existing afterwards. -/
def cleanupRasters (rm_rasters : List String) (existing : List String) :
    List String :=
  existing.filter fun r => ¬ rm_rasters.contains r

/-- An abstract raster store after executing a `g.copy src,dst`: the
destination now holds the source's content, everything else is unchanged. -/
def applyCopy {α : Type} (store : String → Option α) (src dst : String) :
    String → Option α :=
  fun n => if n = dst then store src else store n

end RLearnParallel

namespace RLearnWorker

/-- Flags of `r.learn.predict.worker` in parser declaration order: `p` and
`z`, with the same meaning as in the parent module. -/
structure WorkerFlags where
  p : Bool
  z : Bool
deriving DecidableEq, Repr

/-- Options of `r.learn.predict.worker` as read in its `main`
(lines 132-142). -/
structure WorkerOptions where
  mapset : String
  area : String
  whereCond : String
  nsres : String
  ewres : String
  group : String
  output : String
  load_model : String
  chunksize : String
deriving DecidableEq, Repr

/-- Ambient state the worker observes: the mapset active before the switch
(`old_mapset`, line 165) and the mapset `grass.gisenv()` reports after
`g.mapset -c` (line 180). -/
structure WorkerEnv where
  oldMapset : String
  mapsetAfterSwitch : String
deriving DecidableEq, Repr

/-- The worker's only fatal error: `grass.fatal` when the mapset switch did
not take effect (lines 181-182). -/
inductive WFatal where
  | switchFailed
deriving DecidableEq, Repr

/-- External commands the worker runs, in trace order: remove a stale
mapset directory (`try_rmdir`, line 168), duplicate the GISRC file
(lines 170-174), create-and-switch to the new mapset (`g.mapset -c`,
line 177), set the region (line 184), copy the imagery group into the new
mapset (line 188), run `r.learn.predict` (lines 191-199), remove the
temporary GISRC (line 202). -/
inductive WCmd where
  | rmdirMapset (name : String)
  | copyGisrc
  | createMapset (name : String)
  | setRegion (nsres ewres : String)
  | copyGroup (src dst : String)
  | predict (group output load_model chunksize flagsStr : String)
  | removeGisrc
deriving DecidableEq, Repr

/-- Flag string built in the worker's `main` (lines 143-146): all set flags
in declaration order (p, z). -/
def worker_flags_str (wf : WorkerFlags) : String :=
  (if wf.p then "p" else "") ++ (if wf.z then "z" else "")

/-- Flags the worker actually runs with when invoked by
`r.learn.parallel.predict`: the `Module("r.learn.predict.worker", ...)`
call (parent lines 207-219) passes no `p` or `z` flag argument, so both
stay at their parser default `False`. -/
def workerDefaultFlags : WorkerFlags := ⟨false, false⟩

/-- `main` of `r.learn.predict.worker` (lines 129-203).  A fatal error
carries the command trace accumulated before the abort. -/
def worker_main (wenv : WorkerEnv) (o : WorkerOptions) (wf : WorkerFlags) :
    Except (WFatal × List WCmd) (List WCmd) :=
  let fstr := worker_flags_str wf
  let pre := [WCmd.rmdirMapset o.mapset, WCmd.copyGisrc,
              WCmd.createMapset o.mapset]
  if wenv.mapsetAfterSwitch ≠ o.mapset then .error (.switchFailed, pre)
  else .ok (pre ++
    [WCmd.setRegion o.nsres o.ewres,
     WCmd.copyGroup (o.group ++ "@" ++ wenv.oldMapset) o.group,
     WCmd.predict o.group o.output o.load_model o.chunksize fstr,
     WCmd.removeGisrc])

/-- Content tag for a mapset directory in the GIS database: left over from
an earlier run, or freshly created by `g.mapset -c`. -/
inductive WsContent where
  | stale
  | fresh
deriving DecidableEq, Repr

/-- Effect of the worker's mapset allocation (lines 167-177) on the GIS
database, viewed as an association of mapset names to content:
`grass.utils.try_rmdir` first removes whatever sits at the target name
(and tolerates its absence), then `g.mapset -c` creates the mapset fresh. -/
def wAllocate (store : List (String × WsContent)) (name : String) :
    List (String × WsContent) :=
  (name, WsContent.fresh) :: store.filter (fun p => p.1 ≠ name)

end RLearnWorker

open RLearnParallel RLearnWorker

/-- Sample ambient state: 4 CPUs, `r.learn.predict` installed, parent
mapset unchanged across the wait, pid 42, jobs finishing out of dispatch
order. -/
def env0 : Env := ⟨4, true, "PERMANENT", "PERMANENT", 42, [2, 1, 4, 3]⟩

/-- Sample ambient state whose active mapset changed across
`queue.wait()`. -/
def envLeak : Env :=
  ⟨4, true, "PERMANENT", "tmp_mapset_rlearnpredict_3", 42, [1, 2, 3, 4]⟩

/-- Sample options: default grid, nprocs 2. -/
def opts0 : Options := ⟨"grp", "out", "model.gz", "100000", none, 2⟩

/-- Sample options selecting the direct path (nprocs 0). -/
def optsSeq : Options := ⟨"grp", "out", "model.gz", "100000", none, 0⟩

/-- Sample options with an explicit grid whose row count is 0. -/
def optsBadGrid : Options :=
  ⟨"grp", "out", "model.gz", "100000", some (0, 5), 2⟩

/-- No flags set. -/
def f0 : Flags := ⟨false, false, false⟩

/-- Probability flag `-p` set. -/
def fP : Flags := ⟨true, false, false⟩

/-- VRT flag `-v` set. -/
def fV : Flags := ⟨false, false, true⟩

/-- Worker ambient state in which the mapset switch succeeds. -/
def sampleWorkerEnv : WorkerEnv := ⟨"PERMANENT", "tmp_mapset_rlearnpredict_1"⟩

/-- Worker options as the parent would pass them for cell 1. -/
def sampleWorkerOpts : WorkerOptions :=
  ⟨"tmp_mapset_rlearnpredict_1", "tmp_grid_42", "cat=1", "10", "10",
   "grp", "out_1", "model.gz", "100000"⟩

/-- Reduction of `main` on the parallel path with a valid grid: only the
mapset comparison and the merge step remain. -/
theorem main_parallel_reduce (env : Env) (opts : Options) (f : Flags)
    (hins : env.predictInstalled = true)
    (hgt : 1 < (set_test_nprocs env.cpu opts.n_jobs).1)
    (hrows : 0 < (gridRC env opts).1) (hcols : 0 < (gridRC env opts).2) :
    main env opts f =
      if env.mapsetAfterWait ≠ env.mapsetStart then
        .error (.contextLeak, preTrace env opts (gridCats env opts))
      else
        match mergeStep (classList opts (gridCats env opts)) opts.output f.v with
        | .error e => .error (e, preTrace env opts (gridCats env opts) ++
            copyBackTrace opts (gridCats env opts))
        | .ok (mcmds, rmr) =>
          .ok ⟨preTrace env opts (gridCats env opts) ++
                 copyBackTrace opts (gridCats env opts) ++ mcmds,
               rmr, [gridNameOf env]⟩ := by
  have hmk : mkgridCats (gridRC env opts).1 (gridRC env opts).2 =
      .ok (gridCats env opts) := by
    unfold mkgridCats gridCats
    rw [if_neg]
    omega
  unfold gridRC at hmk
  simp only [main, hins, hmk, hgt, Bool.true_eq_false, if_false, if_true,
    ite_true, ite_false, if_pos hgt]

/-- With more than one tile the merge combines via `r.patch`
or `r.buildvrt`. -/
theorem mergeStep_multi (cl : List (String × String)) (output : String)
    (v : Bool) (h : 1 < cl.length) :
    mergeStep cl output v =
      .ok ([if v then Cmd.buildvrt (cl.map Prod.fst) output
            else Cmd.patch (cl.map Prod.fst) output],
           if v then [] else cl.map Prod.fst) := by
  simp [mergeStep, h]

/-- A non-empty tile set always merges without error. -/
theorem mergeStep_ok_of_ne_nil (cl : List (String × String)) (output : String)
    (v : Bool) (h : cl ≠ []) :
    ∃ out, mergeStep cl output v = .ok out := by
  match cl with
  | [] => exact absurd rfl h
  | c :: cl2 =>
    by_cases h1 : (c :: cl2).length > 1
    · exact ⟨_, mergeStep_multi _ _ _ h1⟩
    · refine ⟨([Cmd.copyRaster c.1 output], []), ?_⟩
      unfold mergeStep
      rw [if_neg h1]
      rfl

/-- Dispatch counting distributes over trace concatenation. -/
theorem countDispatch_append (l1 l2 : List Cmd) :
    countDispatch (l1 ++ l2) = countDispatch l1 + countDispatch l2 :=
  List.countP_append _ _ _

/-- Every entry of the dispatch list is a dispatch. -/
theorem countDispatch_dispatchList (opts : Options) (cs : List Nat) :
    countDispatch (dispatchList opts cs) = cs.length := by
  induction cs with
  | nil => rfl
  | cons a t ih =>
    simp only [dispatchList, List.map_cons, countDispatch,
      List.countP_cons] at ih ⊢
    simp [ih]

/-- Job completions are not dispatches. -/
theorem countDispatch_runs (l : List Nat) :
    countDispatch (l.map Cmd.runWorker) = 0 := by
  induction l with
  | nil => rfl
  | cons a t ih =>
    simp only [List.map_cons, countDispatch, List.countP_cons] at ih ⊢
    simp [ih]

/-- The trace up to the end of the wait holds exactly one dispatch per
cell. -/
theorem countDispatch_preTrace (env : Env) (opts : Options) (cs : List Nat) :
    countDispatch (preTrace env opts cs) = cs.length := by
  have h1 := countDispatch_dispatchList opts cs
  have h2 := countDispatch_runs env.completion
  simp only [countDispatch] at h1 h2
  simp only [preTrace, countDispatch, List.countP_cons, List.countP_append]
  simp [h1, h2]

/-- The copy-back loop dispatches nothing. -/
theorem countDispatch_copyBack (opts : Options) (cs : List Nat) :
    countDispatch (copyBackTrace opts cs) = 0 := by
  simp only [countDispatch, List.countP_eq_zero]
  intro c hc
  simp only [copyBackTrace, List.mem_flatMap, List.mem_cons,
    List.not_mem_nil, or_false] at hc
  obtain ⟨p, -, hp⟩ := hc
  rcases hp with h | h
  · subst h; simp
  · subst h; simp

/-- The parallel happy path up to the merge, in explicit form. -/
theorem main_parallel_multi (env : Env) (opts : Options) (f : Flags)
    (hins : env.predictInstalled = true)
    (hgt : 1 < (set_test_nprocs env.cpu opts.n_jobs).1)
    (hrows : 0 < (gridRC env opts).1) (hcols : 0 < (gridRC env opts).2)
    (hmulti : 1 < (classList opts (gridCats env opts)).length)
    (hms : env.mapsetAfterWait = env.mapsetStart) :
    main env opts f = .ok
      ⟨preTrace env opts (gridCats env opts) ++
         copyBackTrace opts (gridCats env opts) ++
         [if f.v then
            Cmd.buildvrt ((classList opts (gridCats env opts)).map Prod.fst)
              opts.output
          else
            Cmd.patch ((classList opts (gridCats env opts)).map Prod.fst)
              opts.output],
       if f.v then [] else (classList opts (gridCats env opts)).map Prod.fst,
       [gridNameOf env]⟩ := by
  have hred := main_parallel_reduce env opts f hins hgt hrows hcols
  rw [if_neg (by simp [hms]), mergeStep_multi _ _ _ hmulti] at hred
  exact hred

/-- Merge-input extraction distributes over trace concatenation. -/
theorem mergeInputs_append (l1 l2 : List Cmd) :
    mergeInputs (l1 ++ l2) = mergeInputs l1 ++ mergeInputs l2 := by
  simp [mergeInputs]

/-- No combine command occurs before the merge step. -/
theorem mergeInputs_preTrace (env : Env) (opts : Options) (cs : List Nat) :
    mergeInputs (preTrace env opts cs) = [] := by
  unfold mergeInputs
  rw [List.filterMap_eq_nil_iff]
  intro c hc
  simp only [preTrace, dispatchList, List.mem_cons, List.mem_append,
    List.mem_map] at hc
  rcases hc with h | ⟨a, -, h⟩ | ⟨a, -, h⟩ <;> subst h <;> rfl

/-- No combine command occurs in the copy-back loop. -/
theorem mergeInputs_copyBack (opts : Options) (cs : List Nat) :
    mergeInputs (copyBackTrace opts cs) = [] := by
  unfold mergeInputs
  rw [List.filterMap_eq_nil_iff]
  intro c hc
  simp only [copyBackTrace, List.mem_flatMap, List.mem_cons,
    List.not_mem_nil, or_false] at hc
  obtain ⟨p, -, hp⟩ := hc
  rcases hp with h | h <;> subst h <;> rfl

/-- The tile names underlying the classifications list, per cell. -/
theorem classList_map_fst (opts : Options) (cs : List Nat) :
    (classList opts cs).map Prod.fst = cs.map (tmpOutput opts.output) := by
  simp [classList, List.map_map]

/-- Cell identifiers are produced in strictly ascending order. -/
theorem gridCatList_sorted (rows cols : Int) :
    List.Sorted (· < ·) (gridCatList rows cols) := by
  unfold gridCatList
  refine List.Pairwise.map _ ?_ (List.pairwise_lt_range _)
  intro a b h
  omega

/-- C1: the claim that the user-selected probability flags reach the
per-cell inference in the parallel path fails on the code.  With `-p`
chosen the direct path forwards flag string "p" to `r.learn.predict`, but
the worker `Module` invocation of the parallel path carries no flag
argument, so the worker's own flags stay at their default and its
per-cell `r.learn.predict` call runs with the empty flag string. -/
theorem C1_parallel_path_drops_flags :
    flags_str fP = "p" ∧
    main env0 optsSeq fP =
      .ok ⟨[Cmd.predictDirect "grp" "out" "model.gz" "100000" "p"],
           [], []⟩ ∧
    worker_flags_str workerDefaultFlags = "" ∧
    worker_main sampleWorkerEnv sampleWorkerOpts workerDefaultFlags =
      .ok [WCmd.rmdirMapset "tmp_mapset_rlearnpredict_1", WCmd.copyGisrc,
        WCmd.createMapset "tmp_mapset_rlearnpredict_1",
        WCmd.setRegion "10" "10", WCmd.copyGroup "grp@PERMANENT" "grp",
        WCmd.predict "grp" "out_1" "model.gz" "100000" "",
        WCmd.removeGisrc] := by
  refine ⟨rfl, ?_, rfl, ?_⟩ <;> rfl

/-- C2: if the computed parallelism is at most 1 the grid machinery is
skipped and `r.learn.predict` is invoked exactly once, directly, on the
unmodified region; for parallelism above 1 with the default grid exactly
n*n jobs are queued. -/
theorem C2_direct_once_or_n_squared_jobs (env : Env) (opts : Options)
    (f : Flags) (hins : env.predictInstalled = true) :
    ((set_test_nprocs env.cpu opts.n_jobs).1 ≤ 1 →
      main env opts f =
        .ok ⟨[Cmd.predictDirect opts.group opts.output opts.load_model
                opts.chunksize (flags_str f)], [], []⟩) ∧
    (1 < (set_test_nprocs env.cpu opts.n_jobs).1 → opts.grid = none →
      env.mapsetAfterWait = env.mapsetStart →
      ∃ r, main env opts f = .ok r ∧
        countDispatch r.trace =
          (set_test_nprocs env.cpu opts.n_jobs).1.toNat ^ 2) := by
  constructor
  · intro hle
    simp only [main, hins, Bool.true_eq_false, if_false]
    rw [if_neg (by omega)]
  · intro hgt hgrid hms
    have hrc : gridRC env opts =
        ((set_test_nprocs env.cpu opts.n_jobs).1,
         (set_test_nprocs env.cpu opts.n_jobs).1) := by
      simp [gridRC, gridDims, hgrid]
    have hrows : 0 < (gridRC env opts).1 := by rw [hrc]; omega
    have hcols : 0 < (gridRC env opts).2 := by rw [hrc]; omega
    have hlen : (classList opts (gridCats env opts)).length =
        (set_test_nprocs env.cpu opts.n_jobs).1.toNat ^ 2 := by
      simp [classList, gridCats, gridCatList, hrc]
      ring
    have hmulti : 1 < (classList opts (gridCats env opts)).length := by
      rw [hlen]
      have h2 : 2 ≤ (set_test_nprocs env.cpu opts.n_jobs).1.toNat := by omega
      nlinarith
    refine ⟨_, main_parallel_multi env opts f hins hgt hrows hcols hmulti hms,
      ?_⟩
    simp only [countDispatch_append, countDispatch_preTrace,
      countDispatch_copyBack]
    have hone : countDispatch
        [if f.v then
          Cmd.buildvrt ((classList opts (gridCats env opts)).map Prod.fst)
            opts.output
         else
          Cmd.patch ((classList opts (gridCats env opts)).map Prod.fst)
            opts.output] = 0 := by
      cases f.v <;> rfl
    rw [hone]
    simp only [Nat.add_zero]
    rw [← hlen]
    simp [classList]

/-- Witness for C2: nprocs 0 gives the single direct call, nprocs 2 with
the default grid gives 4 dispatched jobs. -/
theorem C2_witness :
    main env0 optsSeq f0 =
      .ok ⟨[Cmd.predictDirect "grp" "out" "model.gz" "100000" ""],
           [], []⟩ ∧
    ∃ r, main env0 opts0 f0 = .ok r ∧ countDispatch r.trace = 4 := by
  constructor
  · exact (C2_direct_once_or_n_squared_jobs env0 optsSeq f0 rfl).1 (by decide)
  · exact (C2_direct_once_or_n_squared_jobs env0 opts0 f0 rfl).2
      (by decide) rfl rfl

/-- C3: after all jobs complete the scheduler compares the current mapset
with the one saved before dispatch; it aborts fatally with the
context-leak error exactly when they differ and otherwise proceeds to the
merge. -/
theorem C3_context_leak_check (env : Env) (opts : Options) (f : Flags)
    (hins : env.predictInstalled = true)
    (hgt : 1 < (set_test_nprocs env.cpu opts.n_jobs).1)
    (hrows : 0 < (gridRC env opts).1) (hcols : 0 < (gridRC env opts).2) :
    ((∃ tr, main env opts f = .error (.contextLeak, tr)) ↔
      env.mapsetAfterWait ≠ env.mapsetStart) ∧
    (env.mapsetAfterWait = env.mapsetStart →
      ∃ r, main env opts f = .ok r) := by
  have hred := main_parallel_reduce env opts f hins hgt hrows hcols
  have hne : classList opts (gridCats env opts) ≠ [] := by
    apply List.length_pos.mp
    have h1 : 0 < (gridRC env opts).1.toNat := by omega
    have h2 : 0 < (gridRC env opts).2.toNat := by omega
    simp only [classList, gridCats, gridCatList, List.length_map,
      List.length_range]
    positivity
  by_cases hms : env.mapsetAfterWait = env.mapsetStart
  · rw [if_neg (by simp [hms])] at hred
    obtain ⟨⟨mcmds, rmr⟩, hout⟩ :=
      mergeStep_ok_of_ne_nil _ opts.output f.v hne
    rw [hout] at hred
    constructor
    · constructor
      · rintro ⟨tr, htr⟩
        rw [htr] at hred
        exact absurd hred (by simp)
      · intro hneq
        exact absurd hms hneq
    · intro _
      exact ⟨_, hred⟩
  · rw [if_pos hms] at hred
    exact ⟨⟨fun _ => hms, fun _ => ⟨_, hred⟩⟩, fun heq => absurd heq hms⟩

/-- Witness for C3: a run whose mapset changed across the wait aborts with
the context-leak error. -/
theorem C3_witness :
    ∃ tr, main envLeak opts0 f0 = .error (.contextLeak, tr) :=
  ((C3_context_leak_check envLeak opts0 f0 rfl (by decide) (by decide)
      (by decide)).1).mpr (by decide)

/-- C4: the merge step on an empty result-tile set fails fatally (the tile
indexing on line 254 cannot produce a tile); it neither succeeds nor takes
any other branch. -/
theorem C4_empty_merge_fails (output : String) (vflag : Bool) :
    mergeStep [] output vflag = .error .mergeEmpty := rfl

/-- C5: the merge step on exactly one result tile degenerates to a single
`g.copy`: no patch or mosaic command is emitted, nothing is registered for
removal, and after the copy the output holds exactly the source tile's
content. -/
theorem C5_single_tile_copy {α : Type} (t : String × String)
    (output : String) (vflag : Bool) (store : String → Option α) :
    mergeStep [t] output vflag = .ok ([Cmd.copyRaster t.1 output], []) ∧
    mergeInputs [Cmd.copyRaster t.1 output] = [] ∧
    applyCopy store t.1 output output = store t.1 := by
  refine ⟨?_, rfl, ?_⟩
  · unfold mergeStep
    rw [if_neg (by simp)]
    rfl
  · simp [applyCopy]

/-- C6: with at least two result tiles the list handed to the combine
command is the tiles in ascending cell identifier order, and it is the
same for every job completion order. -/
theorem C6_merge_sorted_by_cat (env : Env) (opts : Options) (f : Flags)
    (hins : env.predictInstalled = true)
    (hgt : 1 < (set_test_nprocs env.cpu opts.n_jobs).1)
    (hrows : 0 < (gridRC env opts).1) (hcols : 0 < (gridRC env opts).2)
    (hmulti : 1 < (classList opts (gridCats env opts)).length)
    (hms : env.mapsetAfterWait = env.mapsetStart) :
    ∃ r cs, main env opts f = .ok r ∧
      List.Sorted (· < ·) cs ∧
      mergeInputs r.trace = [cs.map (tmpOutput opts.output)] ∧
      ∀ comp2 : List Nat, ∃ r2,
        main { env with completion := comp2 } opts f = .ok r2 ∧
        mergeInputs r2.trace = [cs.map (tmpOutput opts.output)] := by
  have key : ∀ e2 : Env, e2.cpu = env.cpu → e2.predictInstalled = true →
      e2.mapsetAfterWait = e2.mapsetStart →
      ∃ r2, main e2 opts f = .ok r2 ∧
        mergeInputs r2.trace =
          [(gridCats env opts).map (tmpOutput opts.output)] := by
    intro e2 hcpu hins2 hms2
    have hgt2 : 1 < (set_test_nprocs e2.cpu opts.n_jobs).1 := by
      rw [hcpu]; exact hgt
    have hrcEq : gridRC e2 opts = gridRC env opts := by
      simp [gridRC, hcpu]
    have hrows2 : 0 < (gridRC e2 opts).1 := by rw [hrcEq]; exact hrows
    have hcols2 : 0 < (gridRC e2 opts).2 := by rw [hrcEq]; exact hcols
    have hcatsEq : gridCats e2 opts = gridCats env opts := by
      simp [gridCats, hrcEq]
    have hmulti2 : 1 < (classList opts (gridCats e2 opts)).length := by
      rw [hcatsEq]; exact hmulti
    refine ⟨_, main_parallel_multi e2 opts f hins2 hgt2 hrows2 hcols2
        hmulti2 hms2, ?_⟩
    rw [mergeInputs_append, mergeInputs_append, mergeInputs_preTrace,
      mergeInputs_copyBack, hcatsEq]
    cases f.v <;>
      simp [mergeInputs, classList_map_fst]
  obtain ⟨r, hr, hmerge⟩ := key env rfl hins hms
  refine ⟨r, gridCats env opts, hr, gridCatList_sorted _ _, hmerge, ?_⟩
  intro comp2
  exact key { env with completion := comp2 } rfl hins hms

/-- Witness for C6 on the sample 2x2 run, whose jobs complete out of
dispatch order. -/
theorem C6_witness :
    ∃ r cs, main env0 opts0 f0 = .ok r ∧
      List.Sorted (· < ·) cs ∧
      mergeInputs r.trace = [cs.map (tmpOutput opts0.output)] ∧
      ∀ comp2 : List Nat, ∃ r2,
        main { env0 with completion := comp2 } opts0 f0 = .ok r2 ∧
        mergeInputs r2.trace = [cs.map (tmpOutput opts0.output)] :=
  C6_merge_sorted_by_cat env0 opts0 f0 rfl (by decide) (by decide)
    (by decide) (by decide) rfl

/-- C7: workspace allocation first removes whatever sits at the target
mapset path and then creates it fresh: in the worker trace the removal
precedes the creation, and after allocation the store holds a fresh
context at the name regardless of any stale leftover. -/
theorem C7_allocate_removes_stale (store : List (String × WsContent))
    (name : String) (wenv : WorkerEnv) (o : WorkerOptions)
    (wf : WorkerFlags) :
    (wAllocate store name).lookup name = some WsContent.fresh ∧
    (∀ c, (name, c) ∈ wAllocate store name → c = WsContent.fresh) ∧
    (wenv.mapsetAfterSwitch = o.mapset →
      ∃ tr, worker_main wenv o wf = .ok tr ∧
        tr.take 3 = [WCmd.rmdirMapset o.mapset, WCmd.copyGisrc,
          WCmd.createMapset o.mapset]) := by
  refine ⟨?_, ?_, ?_⟩
  · simp [wAllocate, List.lookup]
  · intro c hc
    simp only [wAllocate, List.mem_cons, List.mem_filter] at hc
    rcases hc with h | ⟨-, h⟩
    · exact congrArg Prod.snd h
    · simp at h
  · intro hsw
    refine ⟨[WCmd.rmdirMapset o.mapset, WCmd.copyGisrc,
      WCmd.createMapset o.mapset, WCmd.setRegion o.nsres o.ewres,
      WCmd.copyGroup (o.group ++ "@" ++ wenv.oldMapset) o.group,
      WCmd.predict o.group o.output o.load_model o.chunksize
        (worker_flags_str wf), WCmd.removeGisrc], ?_, rfl⟩
    unfold worker_main
    rw [if_neg (by simp [hsw])]
    rfl

/-- Witness for C7: allocating over a stale leftover of the same name
yields a fresh context, and the sample worker removes before creating. -/
theorem C7_witness :
    (wAllocate [("tmp_mapset_rlearnpredict_1", WsContent.stale)]
        "tmp_mapset_rlearnpredict_1").lookup "tmp_mapset_rlearnpredict_1" =
      some WsContent.fresh ∧
    ∃ tr, worker_main sampleWorkerEnv sampleWorkerOpts workerDefaultFlags =
        .ok tr ∧
      tr.take 3 = [WCmd.rmdirMapset sampleWorkerOpts.mapset, WCmd.copyGisrc,
        WCmd.createMapset sampleWorkerOpts.mapset] :=
  ⟨(C7_allocate_removes_stale
      [("tmp_mapset_rlearnpredict_1", WsContent.stale)]
      "tmp_mapset_rlearnpredict_1" sampleWorkerEnv sampleWorkerOpts
      workerDefaultFlags).1,
   (C7_allocate_removes_stale [] "x" sampleWorkerEnv sampleWorkerOpts
      workerDefaultFlags).2.2 rfl⟩

/-- C8: with at least two result tiles, selecting the virtual mosaic keeps
every tile out of the removal registry so they survive the exit sweep,
while the hard merge registers all of them and the sweep removes them. -/
theorem C8_vrt_tiles_survive_cleanup (env : Env) (opts : Options)
    (f : Flags) (existing : List String)
    (hins : env.predictInstalled = true)
    (hgt : 1 < (set_test_nprocs env.cpu opts.n_jobs).1)
    (hrows : 0 < (gridRC env opts).1) (hcols : 0 < (gridRC env opts).2)
    (hmulti : 1 < (classList opts (gridCats env opts)).length)
    (hms : env.mapsetAfterWait = env.mapsetStart) :
    ∃ r, main env opts f = .ok r ∧
      r.rm_rasters = (if f.v then [] else
        (gridCats env opts).map (tmpOutput opts.output)) ∧
      (f.v = true → cleanupRasters r.rm_rasters existing = existing) ∧
      (f.v = false → ∀ t ∈ (gridCats env opts).map (tmpOutput opts.output),
        t ∉ cleanupRasters r.rm_rasters existing) := by
  refine ⟨_, main_parallel_multi env opts f hins hgt hrows hcols hmulti hms,
    ?_, ?_, ?_⟩
  · cases f.v <;> simp [classList_map_fst]
  · intro hv
    simp [hv, cleanupRasters]
  · intro hv t ht
    simp only [hv, if_false, Bool.false_eq_true, classList_map_fst]
    intro hmem
    unfold cleanupRasters at hmem
    rw [List.mem_filter] at hmem
    have h2 := hmem.2
    simp only [decide_eq_true_eq, List.contains, List.elem_iff] at h2
    exact h2 ht

/-- Witness for C8: the sample 2x2 VRT run keeps its four tiles out of the
removal registry, so the sweep leaves an existing tile untouched. -/
theorem C8_witness :
    ∃ r, main env0 opts0 fV = .ok r ∧
      r.rm_rasters = (if fV.v then [] else
        (gridCats env0 opts0).map (tmpOutput opts0.output)) ∧
      (fV.v = true →
        cleanupRasters r.rm_rasters ["out_1", "keep"] = ["out_1", "keep"]) ∧
      (fV.v = false →
        ∀ t ∈ (gridCats env0 opts0).map (tmpOutput opts0.output),
          t ∉ cleanupRasters r.rm_rasters ["out_1", "keep"]) :=
  C8_vrt_tiles_survive_cleanup env0 opts0 fV ["out_1", "keep"] rfl
    (by decide) (by decide) (by decide) (by decide) rfl

/-- C9: a non-positive requested row or column count makes the grid
creation fail with the invalid-grid error before any job is scheduled:
the aborted trace contains no dispatched job. -/
theorem C9_invalid_grid_rejected (env : Env) (opts : Options) (f : Flags)
    (rows cols : Int)
    (hins : env.predictInstalled = true)
    (hgt : 1 < (set_test_nprocs env.cpu opts.n_jobs).1)
    (hgrid : opts.grid = some (rows, cols))
    (hbad : rows ≤ 0 ∨ cols ≤ 0) :
    main env opts f =
      .error (.invalidGrid, [Cmd.vmkgrid (gridNameOf env) rows cols]) ∧
    countDispatch [Cmd.vmkgrid (gridNameOf env) rows cols] = 0 := by
  refine ⟨?_, rfl⟩
  have hrc : gridDims opts (set_test_nprocs env.cpu opts.n_jobs).1 =
      (rows, cols) := by
    simp [gridDims, hgrid]
  have hmk : mkgridCats rows cols = .error .invalidGrid := by
    unfold mkgridCats
    rw [if_pos hbad]
  simp only [main, hins, Bool.true_eq_false, if_false, hrc, if_pos hgt, hmk]

/-- Witness for C9: requesting a 0,5 grid aborts with the invalid-grid
error and an empty dispatch count. -/
theorem C9_witness :
    main env0 optsBadGrid f0 =
      .error (.invalidGrid, [Cmd.vmkgrid (gridNameOf env0) 0 5]) ∧
    countDispatch [Cmd.vmkgrid (gridNameOf env0) 0 5] = 0 :=
  C9_invalid_grid_rejected env0 optsBadGrid f0 0 5 rfl (by decide) rfl
    (Or.inl (by decide))

/-- C10: every nprocs value other than -2 is returned unchanged by
`set_test_nprocs`, warning non-fatally exactly when it exceeds the CPU
count, and any such value at most 1 (0, 1 or a negative other than -2)
selects the direct non-parallel path. -/
theorem C10_nprocs_passthrough (env : Env) (opts : Options) (f : Flags)
    (hne : opts.n_jobs ≠ -2) :
    (set_test_nprocs env.cpu opts.n_jobs).1 = opts.n_jobs ∧
    ((set_test_nprocs env.cpu opts.n_jobs).2 = true ↔
      env.cpu < opts.n_jobs) ∧
    (opts.n_jobs ≤ 1 → env.predictInstalled = true →
      main env opts f =
        .ok ⟨[Cmd.predictDirect opts.group opts.output opts.load_model
                opts.chunksize (flags_str f)], [], []⟩) := by
  refine ⟨by simp [set_test_nprocs, hne], by simp [set_test_nprocs, hne], ?_⟩
  intro hle hins
  have h1 : (set_test_nprocs env.cpu opts.n_jobs).1 = opts.n_jobs := by
    simp [set_test_nprocs, hne]
  simp only [main, hins, Bool.true_eq_false, if_false, h1]
  rw [if_neg (by omega)]

/-- Witness for C10 at nprocs 0: value unchanged, no warning on 4 CPUs,
direct path taken. -/
theorem C10_witness :
    (set_test_nprocs env0.cpu optsSeq.n_jobs).1 = optsSeq.n_jobs ∧
    ((set_test_nprocs env0.cpu optsSeq.n_jobs).2 = true ↔
      env0.cpu < optsSeq.n_jobs) ∧
    (optsSeq.n_jobs ≤ 1 → env0.predictInstalled = true →
      main env0 optsSeq f0 =
        .ok ⟨[Cmd.predictDirect optsSeq.group optsSeq.output
                optsSeq.load_model optsSeq.chunksize (flags_str f0)],
             [], []⟩) :=
  C10_nprocs_passthrough env0 optsSeq f0 (by decide)
